import Mathlib

/-!
# Verification of the occupancy manager core engine

Shallow embedding of `src/occupancy_manager/model.py` and
`src/occupancy_manager/engine.py` (mjcumming/occupancy_manager).

Conventions of the embedding:
* `datetime` / `timedelta` values are modelled as `Int` minutes on a common
  axis; only comparison and addition are used by the source.
* Python `set[str]` is modelled as `Finset String` (Python compares sets
  extensionally, as does `Finset`).
* Python `dict[str, V]` is modelled as an insertion-ordered association list
  (`List (String × V)`): lookup takes the first matching key, update replaces
  in place, fresh keys are appended.  Key iteration order of a `dict`
  comprehension keeps the first occurrence while the value of a duplicated
  key is the last one written; the helpers below reproduce both.
* Python truthiness is reproduced where the source relies on it:
  `if event.duration:` is false for a zero `timedelta`, `if event.occupant_id:`
  is false for the empty string, `if data.get("occupied_until"):` is false
  for `None` and for the empty string.
* The recursive propagation of `_process_location_update` is embedded with an
  explicit fuel parameter; `none` means the recursion did not complete within
  the fuel (or hit a `KeyError`, e.g. a dangling parent id).  Any terminating
  Python run is reproduced by every sufficiently large fuel.

Note on names: `engine.py` refers to `EventType.MOMENTARY` while `model.py`
declares the pulse member as `MOTION` (comment: "Pulse event - resets timer"),
and `engine.py` imports `StateTransition` from `model.py`, which does not
define it (the test-suite, e.g. `tests/test_model.py`, requires both names
from `occupancy_manager.model`).  The embedding uses the engine's and the
tests' spelling `MOMENTARY` for the pulse member and declares
`StateTransition` with the fields used by `engine.py` and the tests; the
name-resolution defect itself is treated separately (claim C7).
-/

/-- `model.py` `LocationKind`. -/
inductive LocationKind where
  | AREA
  | VIRTUAL
deriving DecidableEq

/-- `model.py` `EventType`.  Constructor `MOMENTARY` is the pulse member
(`model.py` spells it `MOTION`, see the header note). -/
inductive EventType where
  | MOMENTARY
  | HOLD_START
  | HOLD_END
  | MANUAL
  | LOCK_CHANGE
  | PROPAGATED
deriving DecidableEq

/-- `model.py` `LockState`. -/
inductive LockState where
  | UNLOCKED
  | LOCKED_FROZEN
deriving DecidableEq

/-- `model.py` `OccupancyStrategy`. -/
inductive OccupancyStrategy where
  | INDEPENDENT
  | FOLLOW_PARENT
deriving DecidableEq

/-- `model.py` `LocationConfig`.  `timeouts` is the category → minutes dict. -/
structure LocationConfig where
  id : String
  parent_id : Option String
  kind : LocationKind
  occupancy_strategy : OccupancyStrategy
  contributes_to_parent : Bool
  timeouts : List (String × Int)
deriving DecidableEq

/-- The dataclass default `timeouts` mapping of `LocationConfig`. -/
def defaultTimeouts : List (String × Int) :=
  [("motion", 10), ("presence", 2), ("media", 5)]

/-- `model.py` `LocationRuntimeState`. -/
structure LocationRuntimeState where
  is_occupied : Bool
  occupied_until : Option Int
  active_occupants : Finset String
  active_holds : Finset String
  lock_state : LockState
deriving DecidableEq

/-- The dataclass defaults of `LocationRuntimeState()` (default-vacant). -/
def defaultState : LocationRuntimeState :=
  ⟨false, none, ∅, ∅, LockState.UNLOCKED⟩

/-- `model.py` `OccupancyEvent`. -/
structure OccupancyEvent where
  location_id : String
  event_type : EventType
  category : String
  source_id : String
  timestamp : Int
  occupant_id : Option String
  duration : Option Int
deriving DecidableEq

/-- `StateTransition` as constructed by `engine.py` (fields per its call site
and the test-suite; the class is absent from `model.py`, see the header). -/
structure StateTransition where
  location_id : String
  previous_state : LocationRuntimeState
  new_state : LocationRuntimeState
  reason : String
deriving DecidableEq

/-- `model.py` `EngineResult` (transitions carried as `StateTransition`s,
which is what `engine.py` actually appends). -/
structure EngineResult where
  next_expiration : Option Int
  transitions : List StateTransition
deriving DecidableEq

/-! ## Python dict helpers -/

/-- First-match lookup in an insertion-ordered association list (a Python
`dict` read). -/
def dictGet {α : Type} : List (String × α) → String → Option α
  | [], _ => none
  | (k, v) :: rest, key => if k = key then some v else dictGet rest key

/-- In-place update of an association list (a Python `dict` write: existing
keys keep their slot, fresh keys are appended). -/
def dictSet {α : Type} : List (String × α) → String → α → List (String × α)
  | [], key, v => [(key, v)]
  | (k, w) :: rest, key, v =>
      if k = key then (key, v) :: rest else (k, w) :: dictSet rest key v

/-- Key list of the dict comprehension `{c.id: c for c in configs}`:
first-occurrence order. -/
def configIds (configs : List LocationConfig) : List String :=
  (configs.foldl
    (fun acc c => if acc.contains c.id then acc else acc ++ [c.id]) [])

/-- Value lookup in `self.configs = {c.id: c for c in configs}` — for a
duplicated id the last config wins, as in a Python dict comprehension. -/
def configGet (configs : List LocationConfig) (i : String) : Option LocationConfig :=
  configs.foldl (fun acc c => if c.id = i then some c else acc) none

/-- Children of `pid` per `self.children_map` (built from the config list in
order, duplicates included). -/
def childrenOf (configs : List LocationConfig) (pid : String) : List String :=
  (configs.filter (fun c => c.parent_id = some pid)).map (fun c => c.id)

/-! ## Engine state and construction (`OccupancyEngine.__init__`) -/

/-- The engine: frozen configs plus the mutable per-location state dict. -/
structure OccupancyEngine where
  configs : List LocationConfig
  state : List (String × LocationRuntimeState)
deriving DecidableEq

/-- `__init__` state setup.  `if initial_state:` is Python-truthy, so an empty
dict behaves like `None`; with a non-empty `initial_state` the dict is copied
and missing config locations are filled with the default state. -/
def initState (configs : List LocationConfig)
    (initial_state : Option (List (String × LocationRuntimeState))) :
    List (String × LocationRuntimeState) :=
  match initial_state with
  | some m =>
      if m.isEmpty then (configIds configs).map (fun i => (i, defaultState))
      else
        configs.foldl
          (fun st c =>
            match dictGet st c.id with
            | some _ => st
            | none => dictSet st c.id defaultState) m
  | none => (configIds configs).map (fun i => (i, defaultState))

/-- `OccupancyEngine.__init__` — note that the source performs no validation
at all: duplicate ids and dangling `parent_id`s are accepted silently. -/
def initEngine (configs : List LocationConfig)
    (initial_state : Option (List (String × LocationRuntimeState))) :
    OccupancyEngine :=
  ⟨configs, initState configs initial_state⟩

/-! ## `_get_timeout` and the timer arithmetic of `_evaluate_state` -/

/-- `OccupancyEngine._get_timeout`: category lookup, then `"default"`, then
the final fallback of 10 minutes. -/
def getTimeout (configs : List LocationConfig) (category : String)
    (location_id : String) : Int :=
  match configGet configs location_id with
  | some config =>
      match dictGet config.timeouts category with
      | some m => m
      | none =>
          match dictGet config.timeouts "default" with
          | some m => m
          | none => 10
  | none => 10

/-- `if event.duration:` — Python truthiness of a `timedelta`: present and
nonzero. -/
def durationTruthy (d : Option Int) : Bool :=
  match d with
  | some x => x ≠ 0
  | none => false

/-- The `timeout_delta` each timer branch of `_evaluate_state` computes:
the event's duration when truthy, else the category timeout. -/
def timeoutDelta (configs : List LocationConfig) (e : OccupancyEvent)
    (location_id : String) : Int :=
  if durationTruthy e.duration then e.duration.getD 0
  else getTimeout configs e.category location_id

/-- Steps B.4/B.5 of `_evaluate_state` (source lines 301–359): the candidate
`next_occupied_until` after the event's timer mutation.  `curHolds` is
`current_state.active_holds`, `nextHolds` the candidate hold set after step
B.3.  All expiry computations in the source use `now + timeout_delta`. -/
def timerMutation (configs : List LocationConfig) (e : OccupancyEvent)
    (location_id : String) (now : Int) (curHolds nextHolds : Finset String)
    (u : Option Int) : Option Int :=
  match e.event_type with
  | EventType.MANUAL | EventType.MOMENTARY | EventType.PROPAGATED =>
      let calcExp := now + timeoutDelta configs e location_id
      match u with
      | none => some calcExp
      | some t => if calcExp > t then some calcExp else some t
  | EventType.HOLD_END =>
      if nextHolds = ∅ ∧ curHolds ≠ ∅ then
        some (now + timeoutDelta configs e location_id)
      else u
  | _ => u

/-- Step B.1 of `_evaluate_state`: `LOCK_CHANGE` toggles the lock. -/
def applyLockToggle (e : OccupancyEvent) (l : LockState) : LockState :=
  if e.event_type = EventType.LOCK_CHANGE then
    if l = LockState.LOCKED_FROZEN then LockState.UNLOCKED
    else LockState.LOCKED_FROZEN
  else l

/-- Step B.2 of `_evaluate_state`: identity handling (`if event.occupant_id:`
is false for the empty string). -/
def applyIdentity (e : OccupancyEvent) (occ : Finset String) : Finset String :=
  match e.occupant_id with
  | some o =>
      if o = "" then occ
      else if e.event_type = EventType.HOLD_END then occ.erase o
      else insert o occ
  | none => occ

/-- Step B.3 of `_evaluate_state`: hold-set mutation. -/
def applyHolds (e : OccupancyEvent) (holds : Finset String) : Finset String :=
  if e.event_type = EventType.HOLD_START then insert e.source_id holds
  else if e.event_type = EventType.HOLD_END then holds.erase e.source_id
  else holds

/-! ## `_evaluate_state` -/

/-- Sections B–D of `_evaluate_state` as a pure function of the location's
config, the parent's state (`self.state.get(config.parent_id)`), the current
state and the optional event.  Returns the candidate replacement state; the
commit step E compares it with `current`. -/
def computeNext (configs : List LocationConfig) (config : LocationConfig)
    (parent_state : Option LocationRuntimeState)
    (current : LocationRuntimeState) (ev : Option OccupancyEvent)
    (now : Int) : LocationRuntimeState :=
  -- B. candidate inputs
  let next_occupants :=
    match ev with
    | some e => applyIdentity e current.active_occupants
    | none => current.active_occupants
  let next_holds :=
    match ev with
    | some e => applyHolds e current.active_holds
    | none => current.active_holds
  let next_lock :=
    match ev with
    | some e => applyLockToggle e current.lock_state
    | none => current.lock_state
  let until1 :=
    match ev with
    | some e =>
        timerMutation configs e config.id now current.active_holds next_holds
          current.occupied_until
    | none => current.occupied_until
  -- C. occupancy derivation
  let timer_active : Bool :=
    match until1 with
    | some t => t > now
    | none => false
  let fp_parent : Bool :=
    decide (config.occupancy_strategy = OccupancyStrategy.FOLLOW_PARENT) &&
      config.parent_id.isSome &&
      (match parent_state with
       | some ps => ps.is_occupied
       | none => false)
  let parent_held : Bool :=
    match parent_state with
    | some ps => decide (ps.active_holds ≠ ∅) || decide (ps.active_occupants ≠ ∅)
    | none => false
  let is_occupied_candidate : Bool :=
    timer_active || decide (next_holds ≠ ∅) || decide (next_occupants ≠ ∅) ||
      fp_parent
  let until2 := if fp_parent && parent_held then none else until1
  -- D. vacancy cleanup
  if is_occupied_candidate then
    ⟨true, until2, next_occupants, next_holds, next_lock⟩
  else
    ⟨false, none, ∅, ∅, next_lock⟩

/-- Step A of `_evaluate_state`: the lock gate — a frozen location ignores
everything except `MANUAL` and `LOCK_CHANGE` (a nil tick included). -/
def lockGateRejects (current : LocationRuntimeState)
    (ev : Option OccupancyEvent) : Bool :=
  decide (current.lock_state = LockState.LOCKED_FROZEN) &&
    (match ev with
     | none => true
     | some e =>
         decide (e.event_type ≠ EventType.MANUAL) &&
           decide (e.event_type ≠ EventType.LOCK_CHANGE))

/-- `self.state.get(config.parent_id)` — the parent's state as read by
section C of `_evaluate_state`. -/
def parentLookup (config : LocationConfig)
    (σ : List (String × LocationRuntimeState)) :
    Option LocationRuntimeState :=
  match config.parent_id with
  | some pid => dictGet σ pid
  | none => none

/-- `_evaluate_state` after the two dict reads: lock gate, candidate
computation, commit comparison. -/
def evalGated (configs : List LocationConfig) (config : LocationConfig)
    (σ : List (String × LocationRuntimeState))
    (current : LocationRuntimeState) (ev : Option OccupancyEvent)
    (now : Int) :
    Option (LocationRuntimeState × LocationRuntimeState) :=
  if lockGateRejects current ev then none
  else
    let new := computeNext configs config (parentLookup config σ) current ev
      now
    if new = current then none else some (current, new)

/-- `_evaluate_state`: outer `none` models a `KeyError` (unknown config or
state key), `some none` means no change, `some (some (prev, new))` a commit
of `new` replacing `prev`. -/
def evaluateState (configs : List LocationConfig)
    (σ : List (String × LocationRuntimeState)) (location_id : String)
    (ev : Option OccupancyEvent) (now : Int) :
    Option (Option (LocationRuntimeState × LocationRuntimeState)) :=
  match configGet configs location_id with
  | none => none
  | some config =>
      match dictGet σ location_id with
      | none => none
      | some current => some (evalGated configs config σ current ev now)

/-! ## `_process_location_update`: recursive propagation -/

/-- The synthetic event `_process_location_update` sends to a parent. -/
def propagatedEvent (pid child : String) (now : Int) : OccupancyEvent :=
  ⟨pid, EventType.PROPAGATED, "propagated", child, now, none, none⟩

/-- A pending step of the recursive propagation: evaluate one location with
an optional event, or walk the downward children loop. -/
inductive EngineTask where
  | evalLoc (location_id : String) (ev : Option OccupancyEvent)
  | evalKids (kids : List String)

/-- `_process_location_update` with explicit fuel, structurally recursive on
the fuel (each recursive step consumes one unit, so any terminating Python
run is reproduced by every sufficiently large fuel): evaluate the location,
commit, propagate upward (child → parent), then re-evaluate `FOLLOW_PARENT`
children downward.  `none` = fuel exhausted or `KeyError`. -/
def engineGo (fuel : Nat) (configs : List LocationConfig)
    (task : EngineTask) (now : Int)
    (σ : List (String × LocationRuntimeState)) (trs : List StateTransition) :
    Option (List (String × LocationRuntimeState) × List StateTransition) :=
  match fuel with
  | 0 => none
  | Nat.succ f =>
      match task with
      | EngineTask.evalLoc location_id ev =>
          match evaluateState configs σ location_id ev now with
          | none => none
          | some none => some (σ, trs)
          | some (some (prev, new)) =>
              let σ1 := dictSet σ location_id new
              let trs1 :=
                trs ++ [⟨location_id, prev, new,
                         if ev.isSome then "event" else "timeout"⟩]
              match configGet configs location_id with
              | none => none
              | some config =>
                  let up :=
                    match config.parent_id with
                    | some pid =>
                        if config.contributes_to_parent &&
                            (new.is_occupied ||
                              decide (new.active_occupants ≠ ∅)) then
                          engineGo f configs
                            (EngineTask.evalLoc pid
                              (some (propagatedEvent pid location_id now)))
                            now σ1 trs1
                        else some (σ1, trs1)
                    | none => some (σ1, trs1)
                  match up with
                  | none => none
                  | some (σ2, trs2) =>
                      engineGo f configs
                        (EngineTask.evalKids (childrenOf configs location_id))
                        now σ2 trs2
      | EngineTask.evalKids [] => some (σ, trs)
      | EngineTask.evalKids (child :: rest) =>
          match configGet configs child with
          | none => none
          | some child_config =>
              if child_config.occupancy_strategy =
                  OccupancyStrategy.FOLLOW_PARENT then
                match engineGo f configs (EngineTask.evalLoc child none) now
                    σ trs with
                | none => none
                | some (σ', trs') =>
                    engineGo f configs (EngineTask.evalKids rest) now σ' trs'
              else engineGo f configs (EngineTask.evalKids rest) now σ trs

/-- `_process_location_update` entry point. -/
def processLocationUpdate (fuel : Nat) (configs : List LocationConfig)
    (location_id : String) (ev : Option OccupancyEvent) (now : Int)
    (σ : List (String × LocationRuntimeState)) (trs : List StateTransition) :
    Option (List (String × LocationRuntimeState) × List StateTransition) :=
  engineGo fuel configs (EngineTask.evalLoc location_id ev) now σ trs

/-! ## Public entry points -/

/-- `_calculate_next_expiration`: earliest future `occupied_until` over all
state entries with no holds and no occupants. -/
def calcNextExpiration (σ : List (String × LocationRuntimeState))
    (now : Int) : Option Int :=
  σ.foldl
    (fun next_exp kv =>
      let s := kv.2
      if decide (s.active_holds ≠ ∅) || decide (s.active_occupants ≠ ∅) then
        next_exp
      else
        match s.occupied_until with
        | some t =>
            if t > now then
              match next_exp with
              | none => some t
              | some x => if t < x then some t else some x
            else next_exp
        | none => next_exp)
    none

/-- `OccupancyEngine.handle_event`.  An unknown `location_id` is ignored and
the current next-expiration returned. -/
def handleEvent (fuel : Nat) (eng : OccupancyEngine) (e : OccupancyEvent)
    (now : Int) : Option (OccupancyEngine × EngineResult) :=
  match configGet eng.configs e.location_id with
  | none => some (eng, ⟨calcNextExpiration eng.state now, []⟩)
  | some _ =>
      match processLocationUpdate fuel eng.configs e.location_id (some e) now
          eng.state [] with
      | none => none
      | some (σ', trs) =>
          some (⟨eng.configs, σ'⟩, ⟨calcNextExpiration σ' now, trs⟩)

/-- The per-location loop of `check_timeouts`: frozen locations are skipped,
vacant locations are skipped, every other location gets a nil tick. -/
def checkTimeoutsGo (fuel : Nat) (configs : List LocationConfig)
    (ids : List String) (now : Int)
    (σ : List (String × LocationRuntimeState)) (trs : List StateTransition) :
    Option (List (String × LocationRuntimeState) × List StateTransition) :=
  match ids with
  | [] => some (σ, trs)
  | i :: rest =>
      match dictGet σ i with
      | none => none
      | some st =>
          if st.lock_state = LockState.LOCKED_FROZEN then
            checkTimeoutsGo fuel configs rest now σ trs
          else if st.is_occupied = false then
            checkTimeoutsGo fuel configs rest now σ trs
          else
            match processLocationUpdate fuel configs i none now σ trs with
            | none => none
            | some (σ', trs') => checkTimeoutsGo fuel configs rest now σ' trs'

/-- `OccupancyEngine.check_timeouts`. -/
def checkTimeouts (fuel : Nat) (eng : OccupancyEngine) (now : Int) :
    Option (OccupancyEngine × EngineResult) :=
  match checkTimeoutsGo fuel eng.configs (configIds eng.configs) now
      eng.state [] with
  | none => none
  | some (σ', trs) =>
      some (⟨eng.configs, σ'⟩, ⟨calcNextExpiration σ' now, trs⟩)

/-! ## Snapshot restore (`restore_state`) -/

/-- The raw `occupied_until` field of a snapshot entry: `absent` for `None`
(or the falsy empty string), `valid t` for a parseable ISO timestamp,
`malformed` for a truthy string `datetime.fromisoformat` rejects. -/
inductive TimeField where
  | absent
  | valid (t : Int)
  | malformed
deriving DecidableEq

/-- One snapshot entry as read through `data.get(...)` with its defaults
(`is_occupied` false, `lock_state` "unlocked", empty lists). -/
structure SnapshotEntry where
  is_occupied : Bool
  occupied_until : TimeField
  active_occupants : List String
  active_holds : List String
  lock_state : String
deriving DecidableEq

/-- `LockState(value)`: `none` models the `ValueError` an unrecognised string
raises. -/
def lockStateOfValue (s : String) : Option LockState :=
  if s = "unlocked" then some LockState.UNLOCKED
  else if s = "locked_frozen" then some LockState.LOCKED_FROZEN
  else none

/-- One iteration of the `restore_state` loop body for a single snapshot
entry.  The `Bool` is false when the Python code would raise (`ValueError`
from `LockState(lock_state_value)`); the state returned alongside is what the
engine holds at that point. -/
def restoreEntry (configs : List LocationConfig) (now : Int)
    (σ : List (String × LocationRuntimeState)) (loc : String)
    (d : SnapshotEntry) : List (String × LocationRuntimeState) × Bool :=
  if (configGet configs loc).isNone then (σ, true)
  else
    let occupied_until : Option Int :=
      match d.occupied_until with
      | TimeField.valid t => some t
      | _ => none
    let occupants := d.active_occupants.toFinset
    let holds := d.active_holds.toFinset
    -- Rule A: locked-frozen entries restore verbatim.
    if d.lock_state = "locked_frozen" then
      (dictSet σ loc
        ⟨d.is_occupied, occupied_until, occupants, holds,
         LockState.LOCKED_FROZEN⟩, true)
    -- Rule B: occupants/holds force occupancy.  The source keeps the parsed
    -- `occupied_until` here (its own comment says "Keep occupied_until as
    -- None for holds/occupants", but no assignment resets it).
    else if decide (occupants ≠ ∅) || decide (holds ≠ ∅) then
      match lockStateOfValue d.lock_state with
      | some ls => (dictSet σ loc ⟨true, occupied_until, occupants, holds, ls⟩,
          true)
      | none => (σ, false)
    -- Rule C: an expired timer forces the default-vacant state.
    else if (match occupied_until with
             | some t => decide (t < now)
             | none => false) then
      (dictSet σ loc defaultState, true)
    -- Rule D: fresh entries restore verbatim.
    else
      match lockStateOfValue d.lock_state with
      | some ls =>
          (dictSet σ loc ⟨d.is_occupied, occupied_until, occupants, holds, ls⟩,
           true)
      | none => (σ, false)

/-- The `restore_state` loop: entries are applied in order; a raising entry
aborts the loop, keeping the mutations already applied. -/
def restoreStateGo (configs : List LocationConfig) (now : Int) :
    List (String × SnapshotEntry) → List (String × LocationRuntimeState) →
    List (String × LocationRuntimeState) × Bool
  | [], σ => (σ, true)
  | (k, d) :: rest, σ =>
      match restoreEntry configs now σ k d with
      | (σ', true) => restoreStateGo configs now rest σ'
      | (σ', false) => (σ', false)

/-- `OccupancyEngine.restore_state`.  `max_age_minutes` is accepted exactly
as in the source signature; the source body never reads it. -/
def restoreState (eng : OccupancyEngine)
    (snapshot : List (String × SnapshotEntry)) (now : Int)
    (max_age_minutes : Int) : OccupancyEngine × Bool :=
  let r := restoreStateGo eng.configs now snapshot eng.state
  (⟨eng.configs, r.1⟩, r.2)

/-! ## Claim C1 — timer mutation rules -/

/-- Config and inputs for the C1 scenarios. -/
def c1cfg : LocationConfig :=
  ⟨"kitchen", none, LocationKind.AREA, OccupancyStrategy.INDEPENDENT, true,
   [("motion", 10)]⟩

/-- A MOMENTARY pulse whose own timestamp (0) differs from `now` (5). -/
def c1event : OccupancyEvent :=
  ⟨"kitchen", EventType.MOMENTARY, "motion", "pir", 0, none, none⟩

/-- C1 counterexample: with `event.timestamp = 0`, `now = 5` and a 10-minute
motion timeout, the evaluator commits `occupied_until = 15 = now + Δ`; the
claim's `max(current, event.timestamp + Δ)` would give `10`.  The claimed
expiry (`event.timestamp + Δ = 10`) differs from the committed one. -/
theorem c1_counterexample :
    evaluateState [c1cfg] [("kitchen", defaultState)] "kitchen"
        (some c1event) 5 =
      some (some (defaultState,
        ⟨true, some 15, ∅, ∅, LockState.UNLOCKED⟩)) ∧
    some (15 : Int) ≠
      some (c1event.timestamp + timeoutDelta [c1cfg] c1event "kitchen") := by
  constructor
  · decide
  · decide

/-- The timer rule as the amended claim states it: Δ is the event's duration
when present and nonzero, else the category timeout (fallback `"default"`,
ultimately 10); for `MANUAL`, `MOMENTARY` and `PROPAGATED` the new timer is
`max(current, now + Δ)` treating an absent timer as −∞; a `HOLD_END` sets the
timer to `now + Δ` exactly when it releases the last hold, otherwise the
timer is unchanged; other kinds leave the timer unchanged. -/
def timerMutationAmendedSpec (configs : List LocationConfig)
    (e : OccupancyEvent) (location_id : String) (now : Int)
    (curHolds nextHolds : Finset String) (u : Option Int) : Option Int :=
  let delta : Int :=
    match e.duration with
    | some d => if d ≠ 0 then d else getTimeout configs e.category location_id
    | none => getTimeout configs e.category location_id
  match e.event_type with
  | EventType.MANUAL | EventType.MOMENTARY | EventType.PROPAGATED =>
      match u with
      | none => some (now + delta)
      | some t => some (max t (now + delta))
  | EventType.HOLD_END =>
      if curHolds ≠ ∅ ∧ nextHolds = ∅ then some (now + delta) else u
  | _ => u

/-- C1 amended: the evaluator's timer mutation (source lines 301–359) agrees
everywhere with the amended rule — expiry is based on `now` for all timer
kinds (`MANUAL`, `MOMENTARY`, `PROPAGATED` max against `now + Δ`; the
`HOLD_END` fudge timer is `now + Δ` on last release), with Δ the truthy
duration or the category timeout. -/
theorem c1_theorem (configs : List LocationConfig) (e : OccupancyEvent)
    (location_id : String) (now : Int) (curHolds nextHolds : Finset String)
    (u : Option Int) :
    timerMutation configs e location_id now curHolds nextHolds u =
      timerMutationAmendedSpec configs e location_id now curHolds nextHolds
        u := by
  have hdelta :
      (match e.duration with
        | some d =>
            if d ≠ 0 then d else getTimeout configs e.category location_id
        | none => getTimeout configs e.category location_id) =
        timeoutDelta configs e location_id := by
    unfold timeoutDelta durationTruthy
    cases e.duration <;> simp [Option.getD]
  unfold timerMutation timerMutationAmendedSpec
  rw [hdelta]
  cases h : e.event_type <;> cases hu : u <;>
    simp only [] <;> split_ifs <;>
    first
      | rfl
      | tauto
      | (simp only [Option.some.injEq]; omega)

/-! ## Claim C2 — invariant I3 (holds/occupants ⇒ no timer) -/

/-- Single-location config for the C2 run. -/
def c2cfg : LocationConfig :=
  ⟨"kitchen", none, LocationKind.AREA, OccupancyStrategy.INDEPENDENT, true,
   [("motion", 10), ("presence", 2)]⟩

/-- A motion pulse at 12:00 (minute 0). -/
def c2pulse : OccupancyEvent :=
  ⟨"kitchen", EventType.MOMENTARY, "motion", "pir", 0, none, none⟩

/-- A hold starting one minute later while the pulse timer is running. -/
def c2hold : OccupancyEvent :=
  ⟨"kitchen", EventType.HOLD_START, "presence", "radar", 1, none, none⟩

/-- The two-event run: pulse, then hold start. -/
def c2run : Option OccupancyEngine :=
  match handleEvent 4 (initEngine [c2cfg] none) c2pulse 0 with
  | some (g1, _) =>
      match handleEvent 4 g1 c2hold 1 with
      | some (g2, _) => some g2
      | none => none
  | none => none

/-- C2 counterexample: after a public `handle_event` the kitchen has a
non-empty `active_holds` *and* a present `occupied_until` (the pulse timer is
kept while held), violating I3, which demands an absent timer. -/
theorem c2_counterexample :
    c2run.map (fun g => dictGet g.state "kitchen") =
      some (some
        ⟨true, some 10, ∅, insert "radar" ∅, LockState.UNLOCKED⟩) ∧
    (some (10 : Int)) ≠ (none : Option Int) := by
  constructor
  · decide
  · decide

/-- C2 amended: a `HOLD_START` accepted at an unlocked `INDEPENDENT` location
keeps `occupied_until` exactly as it was (the underlying timer is preserved
while the hold is active; it is not cleared), and it leaves the location held
and occupied. -/
theorem c2_theorem (configs : List LocationConfig)
    (σ : List (String × LocationRuntimeState)) (location_id : String)
    (e : OccupancyEvent) (now : Int) (cfg : LocationConfig)
    (prev new : LocationRuntimeState)
    (h1 : e.event_type = EventType.HOLD_START)
    (h2 : configGet configs location_id = some cfg)
    (h3 : cfg.occupancy_strategy = OccupancyStrategy.INDEPENDENT)
    (h4 : evaluateState configs σ location_id (some e) now =
      some (some (prev, new))) :
    new.occupied_until = prev.occupied_until ∧ new.active_holds ≠ ∅ ∧
      new.is_occupied = true := by
  unfold evaluateState at h4
  rw [h2] at h4
  cases hσ : dictGet σ location_id with
  | none => rw [hσ] at h4; simp at h4
  | some current =>
      rw [hσ] at h4
      simp only [Option.some.injEq] at h4
      unfold evalGated at h4
      by_cases hgate : lockGateRejects current (some e) = true
      · rw [if_pos hgate] at h4; cases h4
      · rw [if_neg hgate] at h4
        by_cases heq :
            computeNext configs cfg (parentLookup cfg σ) current (some e)
              now = current
        · rw [if_pos heq] at h4; cases h4
        · rw [if_neg heq] at h4
          simp only [Option.some.injEq, Prod.mk.injEq] at h4
          obtain ⟨hprev, hnew⟩ := h4
          subst hprev
          rw [← hnew]
          unfold computeNext applyHolds applyIdentity timerMutation
          simp only [h1, h3]
          simp [Finset.insert_ne_empty]

/-- Witness for `c2_theorem` at the concrete hold-start of the C2 run. -/
theorem c2_witness :
    (⟨true, some 10, ∅, insert "radar" ∅, LockState.UNLOCKED⟩ :
        LocationRuntimeState).occupied_until =
      (⟨true, some 10, ∅, ∅, LockState.UNLOCKED⟩ :
        LocationRuntimeState).occupied_until ∧
    (⟨true, some 10, ∅, insert "radar" ∅, LockState.UNLOCKED⟩ :
        LocationRuntimeState).active_holds ≠ ∅ ∧
    (⟨true, some 10, ∅, insert "radar" ∅, LockState.UNLOCKED⟩ :
        LocationRuntimeState).is_occupied = true :=
  c2_theorem [c2cfg] [("kitchen", ⟨true, some 10, ∅, ∅, LockState.UNLOCKED⟩)]
    "kitchen" c2hold 1 c2cfg ⟨true, some 10, ∅, ∅, LockState.UNLOCKED⟩
    ⟨true, some 10, ∅, insert "radar" ∅, LockState.UNLOCKED⟩ (by decide)
    (by decide) (by decide) (by decide)

/-! ## Claim C3 — scenario S5 (party-mode lock) -/

/-- S5 configs: home; main_floor under home; kitchen under main_floor with
motion timeout 10; living_room under main_floor following its parent. -/
def c3configs : List LocationConfig :=
  [⟨"home", none, LocationKind.VIRTUAL, OccupancyStrategy.INDEPENDENT, true,
    defaultTimeouts⟩,
   ⟨"main_floor", some "home", LocationKind.VIRTUAL,
    OccupancyStrategy.INDEPENDENT, true, defaultTimeouts⟩,
   ⟨"kitchen", some "main_floor", LocationKind.AREA,
    OccupancyStrategy.INDEPENDENT, true, [("motion", 10)]⟩,
   ⟨"living_room", some "main_floor", LocationKind.AREA,
    OccupancyStrategy.FOLLOW_PARENT, true, defaultTimeouts⟩]

/-- S5 event 1: motion in the kitchen at 12:00 (minute 720). -/
def c3motion : OccupancyEvent :=
  ⟨"kitchen", EventType.MOMENTARY, "motion", "pir", 720, none, none⟩

/-- S5 event 2: lock toggle on the main floor at 12:00. -/
def c3lock : OccupancyEvent :=
  ⟨"main_floor", EventType.LOCK_CHANGE, "manual", "user", 720, none, none⟩

/-- The S5 run: the two events at 12:00, then `check_timeouts` at 12:15. -/
def c3run : Option OccupancyEngine :=
  match handleEvent 8 (initEngine c3configs none) c3motion 720 with
  | some (g1, _) =>
      match handleEvent 8 g1 c3lock 720 with
      | some (g2, _) =>
          match checkTimeouts 8 g2 735 with
          | some (g3, _) => some g3
          | none => none
      | none => none
  | none => none

/-- C3 counterexample: at the end of scenario S5 `home` is *vacant* — its own
10-minute propagated timer (expiring 12:10) elapsed at the 12:15 sweep and
the locked `main_floor` is skipped by the sweep, so nothing re-occupies home.
The claim expects `home` occupied. -/
theorem c3_counterexample :
    c3run.map (fun g => (dictGet g.state "home").map
      (fun s => s.is_occupied)) = some (some false) := by
  decide

/-- C3 amended: the final state of scenario S5 has kitchen vacant, main_floor
occupied and LOCKED_FROZEN (timer frozen at 12:10), living_room occupied
(following the locked parent), and home vacant (its timer expired at the
sweep). -/
theorem c3_theorem :
    c3run = some ⟨c3configs,
      [("home", defaultState),
       ("main_floor", ⟨true, some 730, ∅, ∅, LockState.LOCKED_FROZEN⟩),
       ("kitchen", defaultState),
       ("living_room", ⟨true, none, ∅, ∅, LockState.UNLOCKED⟩)]⟩ := by
  decide

/-! ## Claim C4 — idempotence of `handle_event` -/

/-- Single-location config for the C4 runs. -/
def c4cfg : LocationConfig :=
  ⟨"kitchen", none, LocationKind.AREA, OccupancyStrategy.INDEPENDENT, true,
   defaultTimeouts⟩

/-- A lock toggle event. -/
def c4lockev : OccupancyEvent :=
  ⟨"kitchen", EventType.LOCK_CHANGE, "manual", "user", 0, none, none⟩

/-- One application of the lock toggle to a fresh engine. -/
def c4once : Option (OccupancyEngine × EngineResult) :=
  handleEvent 3 (initEngine [c4cfg] none) c4lockev 0

/-- Two applications of the same lock toggle at the same instant. -/
def c4twice : Option (OccupancyEngine × EngineResult) :=
  match c4once with
  | some (g, _) => handleEvent 3 g c4lockev 0
  | none => none

/-- C4 counterexample: `handle_event(LOCK_CHANGE, t)` twice leaves the
lock UNLOCKED while a single application leaves it LOCKED_FROZEN — the state
maps differ, so idempotence fails for the `LOCK_CHANGE` kind (it toggles). -/
theorem c4_counterexample :
    c4once.map (fun p => p.1.state) =
      some [("kitchen", ⟨false, none, ∅, ∅, LockState.LOCKED_FROZEN⟩)] ∧
    c4twice.map (fun p => p.1.state) =
      some [("kitchen", defaultState)] ∧
    ([("kitchen",
       (⟨false, none, ∅, ∅, LockState.LOCKED_FROZEN⟩ :
         LocationRuntimeState))] :
      List (String × LocationRuntimeState)) ≠
      [("kitchen", defaultState)] := by
  refine ⟨by decide, by decide, by decide⟩

/-! ## Claim C5 — invariant I2 (vacant ⇒ empty evidence) -/

/-- Invariant I2 at a single state: a vacant location carries no timer, no
occupants and no holds. -/
def I2pt (s : LocationRuntimeState) : Prop :=
  s.is_occupied = false →
    s.occupied_until = none ∧ s.active_occupants = ∅ ∧ s.active_holds = ∅

instance (s : LocationRuntimeState) : Decidable (I2pt s) := by
  unfold I2pt; infer_instance

/-- Config for the C5/C6/C9 restore runs. -/
def c5cfg : LocationConfig :=
  ⟨"kitchen", none, LocationKind.AREA, OccupancyStrategy.INDEPENDENT, true,
   defaultTimeouts⟩

/-- A well-formed snapshot entry that is vacant yet carries a future timer
(12:00 restore time, timer at 13:40). -/
def c5snapshot : List (String × SnapshotEntry) :=
  [("kitchen", ⟨false, TimeField.valid 820, [], [], "unlocked"⟩)]

/-- C5 counterexample: `restore_state` on a well-formed snapshot restores a
state with `is_occupied = false` and a *present* `occupied_until` (rule R-D
restores the entry verbatim because the timer has not expired), violating
I2 right after a public call. -/
theorem c5_counterexample :
    restoreState (initEngine [c5cfg] none) c5snapshot 720 15 =
      (⟨[c5cfg],
        [("kitchen", ⟨false, some 820, ∅, ∅, LockState.UNLOCKED⟩)]⟩,
       true) ∧
    ¬ I2pt ⟨false, some 820, ∅, ∅, LockState.UNLOCKED⟩ := by
  refine ⟨by decide, by decide⟩

/-! ## Claim C6 — restore rule R-B keeps the stored timer -/

/-- A snapshot entry with a hold *and* a stored `occupied_until` (13:10),
not locked. -/
def c6snapshot : List (String × SnapshotEntry) :=
  [("kitchen", ⟨true, TimeField.valid 730, [], ["radar"], "unlocked"⟩)]

/-- C6: evaluating `restore_state` at the failing input.  Rule R-B fires
(holds non-empty, not locked) and the restored state keeps
`occupied_until = 13:10` taken from the snapshot — the claim (and the
source's own comment "Keep occupied_until as None for holds/occupants")
require it to be absent. -/
theorem c6_theorem :
    restoreState (initEngine [c5cfg] none) c6snapshot 720 15 =
      (⟨[c5cfg],
        [("kitchen",
          ⟨true, some 730, ∅, insert "radar" ∅, LockState.UNLOCKED⟩)]⟩,
       true) ∧
    some (730 : Int) ≠ (none : Option Int) := by
  refine ⟨by decide, by decide⟩

/-! ## Claim C7 — name resolution of the engine against `model.py` -/

/-- The class names `model.py` actually defines. -/
def modelModuleClassNames : List String :=
  ["LocationKind", "EventType", "LockState", "OccupancyStrategy",
   "LocationConfig", "LocationRuntimeState", "OccupancyEvent", "EngineResult"]

/-- The members of `EventType` in `model.py` (the pulse member is `MOTION`). -/
def modelEventTypeMemberNames : List String :=
  ["MOTION", "HOLD_START", "HOLD_END", "MANUAL", "LOCK_CHANGE", "PROPAGATED"]

/-- The names `engine.py` imports `from .model import (...)`. -/
def engineImportsFromModel : List String :=
  ["EngineResult", "EventType", "LocationConfig", "LocationRuntimeState",
   "LockState", "OccupancyEvent", "OccupancyStrategy", "StateTransition"]

/-- The `EventType` members `engine.py` dereferences (`EventType.X`). -/
def engineEventTypeRefs : List String :=
  ["MANUAL", "LOCK_CHANGE", "HOLD_END", "HOLD_START", "MOMENTARY",
   "PROPAGATED"]

/-- C7: the engine's name resolution against `model.py` fails.  `engine.py`
imports `StateTransition` from the model module, which does not define it
(so importing the engine raises `ImportError` before any event can be
handled), and `engine.py` dereferences `EventType.MOMENTARY`, a member the
model's `EventType` lacks (it has `MOTION`), so `_evaluate_state` would raise
`AttributeError` on every event.  Hence `handle_event` on a momentary event
is *not* total, contradicting the claim. -/
theorem c7_theorem :
    ("StateTransition" ∈ engineImportsFromModel ∧
      "StateTransition" ∉ modelModuleClassNames) ∧
    ("MOMENTARY" ∈ engineEventTypeRefs ∧
      "MOMENTARY" ∉ modelEventTypeMemberNames) := by
  refine ⟨⟨by decide, by decide⟩, ⟨by decide, by decide⟩⟩

/-! ## Claim C8 — construction-time validation -/

/-- A config list with a duplicated id (`kitchen` twice) *and* a dangling
parent (`ghost` is not a config id). -/
def c8dupConfigs : List LocationConfig :=
  [⟨"kitchen", some "ghost", LocationKind.AREA, OccupancyStrategy.INDEPENDENT,
    true, []⟩,
   ⟨"kitchen", none, LocationKind.AREA, OccupancyStrategy.INDEPENDENT, true,
    defaultTimeouts⟩]

/-- C8 counterexample: construction on a duplicate-id, dangling-parent config
list *succeeds* — `__init__` performs no validation at all (its body is total:
dict comprehensions and loops only), the duplicate collapses to the last
config, and the single resulting location starts default-vacant.  The claim
requires construction to fail on this input. -/
theorem c8_counterexample :
    initEngine c8dupConfigs none =
      ⟨c8dupConfigs, [("kitchen", defaultState)]⟩ := by
  decide

/-! ## Claim C10 — `max_age_minutes` is dead -/

/-- C10: `restore_state` ignores `max_age_minutes` entirely — the parameter
appears in the signature but the body never reads it, so any two values give
identical results on every snapshot, instant and engine. -/
theorem c10_theorem (eng : OccupancyEngine)
    (snapshot : List (String × SnapshotEntry)) (now a b : Int) :
    restoreState eng snapshot now a = restoreState eng snapshot now b :=
  rfl

/-! ## Shared lemmas about the dict helpers and the evaluator -/

theorem dictGet_dictSet {α : Type} (σ : List (String × α)) (k : String)
    (v : α) (l : String) :
    dictGet (dictSet σ k v) l = if k = l then some v else dictGet σ l := by
  induction σ with
  | nil => by_cases h : k = l <;> simp [dictGet, dictSet, h]
  | cons hd tl ih =>
      obtain ⟨k', v'⟩ := hd
      by_cases h : k' = k
      · subst h
        by_cases h2 : k' = l <;> simp [dictGet, dictSet, h2]
      · by_cases h2 : k' = l
        · subst h2
          have hkl : ¬ k = k' := fun hh => h hh.symm
          simp [dictGet, dictSet, h, hkl]
        · simp [dictGet, dictSet, h, h2, ih]

/-- Characterisation of a committing `_evaluate_state` call. -/
theorem evaluateState_commit {configs : List LocationConfig}
    {σ : List (String × LocationRuntimeState)} {L : String}
    {ev : Option OccupancyEvent} {now : Int}
    {prev new : LocationRuntimeState}
    (h : evaluateState configs σ L ev now = some (some (prev, new))) :
    ∃ config, configGet configs L = some config ∧ dictGet σ L = some prev ∧
      lockGateRejects prev ev = false ∧
      new = computeNext configs config (parentLookup config σ) prev ev now ∧
      new ≠ prev := by
  unfold evaluateState at h
  cases hc : configGet configs L with
  | none => rw [hc] at h; cases h
  | some config =>
      rw [hc] at h
      cases hs : dictGet σ L with
      | none => rw [hs] at h; cases h
      | some current =>
          rw [hs] at h
          simp only [Option.some.injEq] at h
          unfold evalGated at h
          by_cases hg : lockGateRejects current ev = true
          · rw [if_pos hg] at h; cases h
          · rw [if_neg hg] at h
            by_cases he :
                computeNext configs config (parentLookup config σ) current ev
                  now = current
            · rw [if_pos he] at h; cases h
            · rw [if_neg he] at h
              simp only [Option.some.injEq, Prod.mk.injEq] at h
              obtain ⟨h1, h2⟩ := h
              subst h1
              exact ⟨config, rfl, rfl, by simpa using hg, h2.symm, h2 ▸ he⟩

theorem applyIdentity_idem (e : OccupancyEvent) (occ : Finset String) :
    applyIdentity e (applyIdentity e occ) = applyIdentity e occ := by
  unfold applyIdentity
  cases e.occupant_id with
  | none => rfl
  | some o =>
      by_cases h : o = ""
      · simp [h]
      · by_cases hk : e.event_type = EventType.HOLD_END <;>
          simp [h, hk, Finset.erase_idem, Finset.insert_idem]

theorem applyHolds_idem (e : OccupancyEvent) (holds : Finset String) :
    applyHolds e (applyHolds e holds) = applyHolds e holds := by
  unfold applyHolds
  by_cases h1 : e.event_type = EventType.HOLD_START
  · simp [h1, Finset.insert_idem]
  · by_cases h2 : e.event_type = EventType.HOLD_END <;>
      simp [h1, h2, Finset.erase_idem]

theorem applyLockToggle_id (e : OccupancyEvent) (l : LockState)
    (h : e.event_type ≠ EventType.LOCK_CHANGE) :
    applyLockToggle e l = l := by
  unfold applyLockToggle
  simp [h]

/-! ## Evaluator idempotence (claim C4's amended statement) -/

theorem timerMutation_timer_ge (configs : List LocationConfig)
    (e : OccupancyEvent) (L : String) (now : Int)
    (curHolds nextHolds : Finset String) (u : Option Int)
    (hk : e.event_type = EventType.MANUAL ∨
      e.event_type = EventType.MOMENTARY ∨
      e.event_type = EventType.PROPAGATED) :
    ∃ t, timerMutation configs e L now curHolds nextHolds u = some t ∧
      now + timeoutDelta configs e L ≤ t := by
  have heq : timerMutation configs e L now curHolds nextHolds u =
      (match u with
       | none => some (now + timeoutDelta configs e L)
       | some t =>
           if now + timeoutDelta configs e L > t then
             some (now + timeoutDelta configs e L)
           else some t) := by
    unfold timerMutation
    rcases hk with h | h | h <;> rw [h]
  rw [heq]
  cases u with
  | none => exact ⟨_, rfl, le_refl _⟩
  | some t =>
      show ∃ t1,
        (if now + timeoutDelta configs e L > t then
            some (now + timeoutDelta configs e L)
          else some t) = some t1 ∧
          now + timeoutDelta configs e L ≤ t1
      by_cases h : now + timeoutDelta configs e L > t
      · rw [if_pos h]; exact ⟨_, rfl, le_refl _⟩
      · rw [if_neg h]; exact ⟨t, rfl, by omega⟩

theorem timerMutation_fix_of_ge (configs : List LocationConfig)
    (e : OccupancyEvent) (L : String) (now : Int)
    (curHolds nextHolds : Finset String) (t : Int)
    (hk : e.event_type = EventType.MANUAL ∨
      e.event_type = EventType.MOMENTARY ∨
      e.event_type = EventType.PROPAGATED)
    (hge : now + timeoutDelta configs e L ≤ t) :
    timerMutation configs e L now curHolds nextHolds (some t) = some t := by
  unfold timerMutation
  rcases hk with h | h | h <;> rw [h] <;> exact if_neg (by omega)

theorem timerMutation_hold_end_eq (configs : List LocationConfig)
    (e : OccupancyEvent) (L : String) (now : Int) (hds : Finset String)
    (u : Option Int) (hk : e.event_type = EventType.HOLD_END) :
    timerMutation configs e L now hds hds u = u := by
  unfold timerMutation
  rw [hk]
  exact if_neg (by rintro ⟨h1, h2⟩; exact h2 h1)

theorem timerMutation_hold_start_eq (configs : List LocationConfig)
    (e : OccupancyEvent) (L : String) (now : Int)
    (curHolds nextHolds : Finset String) (u : Option Int)
    (hk : e.event_type = EventType.HOLD_START) :
    timerMutation configs e L now curHolds nextHolds u = u := by
  unfold timerMutation
  rw [hk]

/-- The candidate occupant set of section B (named form of the first `let` of
`computeNext`). -/
def occ1Of (s : LocationRuntimeState) (ev : Option OccupancyEvent) :
    Finset String :=
  match ev with
  | some e => applyIdentity e s.active_occupants
  | none => s.active_occupants

/-- The candidate hold set of section B. -/
def holds1Of (s : LocationRuntimeState) (ev : Option OccupancyEvent) :
    Finset String :=
  match ev with
  | some e => applyHolds e s.active_holds
  | none => s.active_holds

/-- The candidate lock state of section B. -/
def lock1Of (s : LocationRuntimeState) (ev : Option OccupancyEvent) :
    LockState :=
  match ev with
  | some e => applyLockToggle e s.lock_state
  | none => s.lock_state

/-- The candidate timer of section B (before the follow-parent clearing). -/
def until1Of (configs : List LocationConfig) (config : LocationConfig)
    (s : LocationRuntimeState) (ev : Option OccupancyEvent) (now : Int) :
    Option Int :=
  match ev with
  | some e =>
      timerMutation configs e config.id now s.active_holds (holds1Of s ev)
        s.occupied_until
  | none => s.occupied_until

/-- Rule C.1: the timer clause. -/
def timerActiveOf (u : Option Int) (now : Int) : Bool :=
  match u with
  | some t => decide (t > now)
  | none => false

/-- Rule C.4's guard: follow-parent with an occupied parent. -/
def fpParentOf (config : LocationConfig)
    (ps : Option LocationRuntimeState) : Bool :=
  decide (config.occupancy_strategy = OccupancyStrategy.FOLLOW_PARENT) &&
    config.parent_id.isSome &&
    (match ps with
     | some p => p.is_occupied
     | none => false)

/-- Whether the parent is held (holds or occupants non-empty). -/
def parentHeldOf (ps : Option LocationRuntimeState) : Bool :=
  match ps with
  | some p => decide (p.active_holds ≠ ∅) || decide (p.active_occupants ≠ ∅)
  | none => false

/-- Rule C's occupancy candidate. -/
def candOf (configs : List LocationConfig) (config : LocationConfig)
    (ps : Option LocationRuntimeState) (s : LocationRuntimeState)
    (ev : Option OccupancyEvent) (now : Int) : Bool :=
  timerActiveOf (until1Of configs config s ev now) now ||
    decide (holds1Of s ev ≠ ∅) || decide (occ1Of s ev ≠ ∅) ||
    fpParentOf config ps

/-- The committed timer (after the follow-parent clearing). -/
def until2Of (configs : List LocationConfig) (config : LocationConfig)
    (ps : Option LocationRuntimeState) (s : LocationRuntimeState)
    (ev : Option OccupancyEvent) (now : Int) : Option Int :=
  if fpParentOf config ps && parentHeldOf ps then none
  else until1Of configs config s ev now

/-- `computeNext` in terms of the named section-B/C quantities. -/
theorem computeNext_eq_parts (configs : List LocationConfig)
    (config : LocationConfig) (ps : Option LocationRuntimeState)
    (s : LocationRuntimeState) (ev : Option OccupancyEvent) (now : Int) :
    computeNext configs config ps s ev now =
      if candOf configs config ps s ev now then
        ⟨true, until2Of configs config ps s ev now, occ1Of s ev,
         holds1Of s ev, lock1Of s ev⟩
      else ⟨false, none, ∅, ∅, lock1Of s ev⟩ := rfl

theorem applyIdentity_empty_of (e : OccupancyEvent) (X : Finset String)
    (h : applyIdentity e X = ∅) :
    applyIdentity e (∅ : Finset String) = ∅ := by
  unfold applyIdentity at h ⊢
  cases ho : e.occupant_id with
  | none => rfl
  | some o =>
      simp only [ho] at h ⊢
      by_cases h1 : o = ""
      · simp [h1]
      · by_cases h2 : e.event_type = EventType.HOLD_END
        · simp [h1, h2]
        · simp [h1, h2] at h

theorem applyHolds_empty_of (e : OccupancyEvent) (X : Finset String)
    (h : applyHolds e X = ∅) :
    applyHolds e (∅ : Finset String) = ∅ := by
  unfold applyHolds at h ⊢
  by_cases h1 : e.event_type = EventType.HOLD_START
  · rw [if_pos h1] at h; exact absurd h (Finset.insert_ne_empty _ _)
  · rw [if_neg h1] at h ⊢
    by_cases h2 : e.event_type = EventType.HOLD_END <;> simp [h2]

theorem until2Of_clear (configs : List LocationConfig)
    (config : LocationConfig) (ps : Option LocationRuntimeState)
    (X : LocationRuntimeState) (ev : Option OccupancyEvent) (now : Int)
    (h : (fpParentOf config ps && parentHeldOf ps) = true) :
    until2Of configs config ps X ev now = none := by
  unfold until2Of; rw [if_pos h]

theorem until2Of_noclear (configs : List LocationConfig)
    (config : LocationConfig) (ps : Option LocationRuntimeState)
    (X : LocationRuntimeState) (ev : Option OccupancyEvent) (now : Int)
    (h : ¬ (fpParentOf config ps && parentHeldOf ps) = true) :
    until2Of configs config ps X ev now =
      until1Of configs config X ev now := by
  unfold until2Of; rw [if_neg h]

theorem candOf_of_fp (configs : List LocationConfig)
    (config : LocationConfig) (ps : Option LocationRuntimeState)
    (X : LocationRuntimeState) (ev : Option OccupancyEvent) (now : Int)
    (h : fpParentOf config ps = true) :
    candOf configs config ps X ev now = true := by
  unfold candOf; rw [h]; simp

/-- The evaluator's candidate computation is idempotent for non-LOCK_CHANGE
events when the environment (config, parent state) is unchanged: re-applying
the same event to the committed candidate produces the same candidate. -/
theorem computeNext_idem (configs : List LocationConfig)
    (config : LocationConfig) (ps : Option LocationRuntimeState)
    (s : LocationRuntimeState) (e : OccupancyEvent) (now : Int)
    (hkind : e.event_type ≠ EventType.LOCK_CHANGE) :
    computeNext configs config ps
        (computeNext configs config ps s (some e) now) (some e) now =
      computeNext configs config ps s (some e) now := by
  obtain ⟨occ1, hocc1⟩ : ∃ x, occ1Of s (some e) = x := ⟨_, rfl⟩
  obtain ⟨holds1, hholds1⟩ : ∃ x, holds1Of s (some e) = x := ⟨_, rfl⟩
  obtain ⟨lock1, hlock1⟩ : ∃ x, lock1Of s (some e) = x := ⟨_, rfl⟩
  obtain ⟨u1, hu1g⟩ : ∃ x, until1Of configs config s (some e) now = x :=
    ⟨_, rfl⟩
  obtain ⟨u2, hu2g⟩ : ∃ x, until2Of configs config ps s (some e) now = x :=
    ⟨_, rfl⟩
  have happly : applyHolds e holds1 = holds1 := by
    rw [← hholds1]; exact applyHolds_idem e s.active_holds
  by_cases hc : candOf configs config ps s (some e) now = true
  · have hfirst : computeNext configs config ps s (some e) now =
        ⟨true, u2, occ1, holds1, lock1⟩ := by
      rw [computeNext_eq_parts, if_pos hc, hocc1, hholds1, hlock1, hu2g]
    rw [hfirst, computeNext_eq_parts]
    have hoccN : occ1Of ⟨true, u2, occ1, holds1, lock1⟩ (some e) = occ1 := by
      rw [← hocc1]; exact applyIdentity_idem e s.active_occupants
    have hholdsN : holds1Of ⟨true, u2, occ1, holds1, lock1⟩ (some e) =
        holds1 := by
      rw [← hholds1]; exact applyHolds_idem e s.active_holds
    have hlockN : lock1Of ⟨true, u2, occ1, holds1, lock1⟩ (some e) =
        lock1 := by
      rw [← hlock1]; exact applyLockToggle_id e (lock1Of s (some e)) hkind
    by_cases hclear : (fpParentOf config ps && parentHeldOf ps) = true
    · have hfp : fpParentOf config ps = true :=
        ((Bool.and_eq_true _ _).mp hclear).1
      have hu2v : u2 = none := by
        rw [← hu2g]; exact until2Of_clear configs config ps s (some e) now
          hclear
      rw [if_pos (candOf_of_fp configs config ps _ (some e) now hfp),
        hoccN, hholdsN, hlockN,
        until2Of_clear configs config ps _ (some e) now hclear, hu2v]
    · have hu2u1 : u2 = u1 := by
        rw [← hu2g, ← hu1g]
        exact until2Of_noclear configs config ps s (some e) now hclear
      have huN : until1Of configs config ⟨true, u2, occ1, holds1, lock1⟩
          (some e) now = u1 := by
        show timerMutation configs e config.id now holds1
          (applyHolds e holds1) u2 = u1
        rw [happly, hu2u1]
        rcases hk : e.event_type with _ | _ | _ | _ | _ | _
        · obtain ⟨t, ht, hget⟩ := timerMutation_timer_ge configs e config.id
            now s.active_holds (holds1Of s (some e)) s.occupied_until
            (Or.inr (Or.inl hk))
          have ht' : u1 = some t := by
            rw [← hu1g]; exact ht
          rw [ht']
          exact timerMutation_fix_of_ge configs e config.id now _ _ t
            (Or.inr (Or.inl hk)) hget
        · exact timerMutation_hold_start_eq configs e config.id now _ _ _ hk
        · exact timerMutation_hold_end_eq configs e config.id now _ _ hk
        · obtain ⟨t, ht, hget⟩ := timerMutation_timer_ge configs e config.id
            now s.active_holds (holds1Of s (some e)) s.occupied_until
            (Or.inl hk)
          have ht' : u1 = some t := by
            rw [← hu1g]; exact ht
          rw [ht']
          exact timerMutation_fix_of_ge configs e config.id now _ _ t
            (Or.inl hk) hget
        · exact absurd hk hkind
        · obtain ⟨t, ht, hget⟩ := timerMutation_timer_ge configs e config.id
            now s.active_holds (holds1Of s (some e)) s.occupied_until
            (Or.inr (Or.inr hk))
          have ht' : u1 = some t := by
            rw [← hu1g]; exact ht
          rw [ht']
          exact timerMutation_fix_of_ge configs e config.id now _ _ t
            (Or.inr (Or.inr hk)) hget
      have hcandN : candOf configs config ps ⟨true, u2, occ1, holds1, lock1⟩
          (some e) now = true := by
        unfold candOf
        rw [huN, hoccN, hholdsN]
        unfold candOf at hc
        rw [hu1g, hocc1, hholds1] at hc
        exact hc
      have hu2N : until2Of configs config ps
          ⟨true, u2, occ1, holds1, lock1⟩ (some e) now = u2 := by
        rw [until2Of_noclear configs config ps _ (some e) now hclear, huN]
        exact hu2u1.symm
      rw [if_pos hcandN, hoccN, hholdsN, hlockN, hu2N]
  · have hfirst : computeNext configs config ps s (some e) now =
        ⟨false, none, ∅, ∅, lock1⟩ := by
      rw [computeNext_eq_parts, if_neg hc, hlock1]
    have hc' : candOf configs config ps s (some e) now = false :=
      Bool.not_eq_true _ ▸ hc
    unfold candOf at hc'
    rw [hu1g, hocc1, hholds1] at hc'
    simp only [Bool.or_eq_false_iff, decide_eq_false_iff_not, not_not]
      at hc'
    obtain ⟨⟨⟨htimer, hh1⟩, ho1⟩, hfp⟩ := hc'
    have hoccN : occ1Of ⟨false, none, ∅, ∅, lock1⟩ (some e) =
        (∅ : Finset String) :=
      applyIdentity_empty_of e s.active_occupants (hocc1.trans ho1)
    have hApps : applyHolds e (∅ : Finset String) = ∅ :=
      applyHolds_empty_of e s.active_holds (hholds1.trans hh1)
    have hholdsN : holds1Of ⟨false, none, ∅, ∅, lock1⟩ (some e) =
        (∅ : Finset String) := hApps
    have htimerN : timerActiveOf (until1Of configs config
        ⟨false, none, ∅, ∅, lock1⟩ (some e) now) now = false := by
      show timerActiveOf (timerMutation configs e config.id now
        (∅ : Finset String) (applyHolds e (∅ : Finset String)) none)
        now = false
      rw [hApps]
      rcases hk : e.event_type with _ | _ | _ | _ | _ | _
      · obtain ⟨t, ht, hget⟩ := timerMutation_timer_ge configs e config.id
          now s.active_holds (holds1Of s (some e)) s.occupied_until
          (Or.inr (Or.inl hk))
        have ht' : u1 = some t := by rw [← hu1g]; exact ht
        rw [ht'] at htimer
        have hle : t ≤ now := by
          have := (show decide (t > now) = false from htimer)
          simp only [decide_eq_false_iff_not] at this
          omega
        have hred : timerMutation configs e config.id now (∅ : Finset String)
            (∅ : Finset String) (none : Option Int) =
            some (now + timeoutDelta configs e config.id) := by
          unfold timerMutation; rw [hk]
        rw [hred]
        simp only [timerActiveOf, decide_eq_false_iff_not]
        omega
      · rw [timerMutation_hold_start_eq configs e config.id now _ _ _ hk]
        rfl
      · rw [timerMutation_hold_end_eq configs e config.id now _ _ hk]
        rfl
      · obtain ⟨t, ht, hget⟩ := timerMutation_timer_ge configs e config.id
          now s.active_holds (holds1Of s (some e)) s.occupied_until
          (Or.inl hk)
        have ht' : u1 = some t := by rw [← hu1g]; exact ht
        rw [ht'] at htimer
        have hle : t ≤ now := by
          have := (show decide (t > now) = false from htimer)
          simp only [decide_eq_false_iff_not] at this
          omega
        have hred : timerMutation configs e config.id now (∅ : Finset String)
            (∅ : Finset String) (none : Option Int) =
            some (now + timeoutDelta configs e config.id) := by
          unfold timerMutation; rw [hk]
        rw [hred]
        simp only [timerActiveOf, decide_eq_false_iff_not]
        omega
      · exact absurd hk hkind
      · obtain ⟨t, ht, hget⟩ := timerMutation_timer_ge configs e config.id
          now s.active_holds (holds1Of s (some e)) s.occupied_until
          (Or.inr (Or.inr hk))
        have ht' : u1 = some t := by rw [← hu1g]; exact ht
        rw [ht'] at htimer
        have hle : t ≤ now := by
          have := (show decide (t > now) = false from htimer)
          simp only [decide_eq_false_iff_not] at this
          omega
        have hred : timerMutation configs e config.id now (∅ : Finset String)
            (∅ : Finset String) (none : Option Int) =
            some (now + timeoutDelta configs e config.id) := by
          unfold timerMutation; rw [hk]
        rw [hred]
        simp only [timerActiveOf, decide_eq_false_iff_not]
        omega
    have hcandN : candOf configs config ps ⟨false, none, ∅, ∅, lock1⟩
        (some e) now = false := by
      unfold candOf
      rw [htimerN, hoccN, hholdsN, hfp]
      simp
    have hlockN : lock1Of ⟨false, none, ∅, ∅, lock1⟩ (some e) = lock1 := by
      rw [← hlock1]; exact applyLockToggle_id e (lock1Of s (some e)) hkind
    rw [hfirst, computeNext_eq_parts,
      if_neg (by rw [hcandN]; exact Bool.false_ne_true), hlockN]

/-- C4 amended: evaluator-level idempotence.  Re-evaluating the same
non-`LOCK_CHANGE` event against the state it just committed — with every
other location unchanged and the location not its own parent — produces no
further change (`some none`): hold/occupant sets are sets, the timer maxes
against itself, the fudge timer cannot re-fire.  (Engine-level idempotence
fails: `LOCK_CHANGE` toggles, see `c4_counterexample`.) -/
theorem c4_theorem (configs : List LocationConfig)
    (σ : List (String × LocationRuntimeState)) (location_id : String)
    (e : OccupancyEvent) (now : Int) (cfg : LocationConfig)
    (prev new : LocationRuntimeState)
    (hkind : e.event_type ≠ EventType.LOCK_CHANGE)
    (hcfg : configGet configs location_id = some cfg)
    (hpar : cfg.parent_id ≠ some location_id)
    (hcommit : evaluateState configs σ location_id (some e) now =
      some (some (prev, new))) :
    evaluateState configs (dictSet σ location_id new) location_id (some e)
      now = some none := by
  obtain ⟨config, hc, hs, hg, hnew, hne⟩ := evaluateState_commit hcommit
  rw [hcfg] at hc
  injection hc with hcc
  subst hcc
  have hlock : new.lock_state = prev.lock_state := by
    rw [hnew, computeNext_eq_parts]
    split_ifs <;> exact applyLockToggle_id e prev.lock_state hkind
  have hg2 : lockGateRejects new (some e) = false := by
    unfold lockGateRejects at hg ⊢
    rw [hlock]
    exact hg
  have hget : dictGet (dictSet σ location_id new) location_id = some new := by
    rw [dictGet_dictSet]; simp
  have hparent : parentLookup cfg (dictSet σ location_id new) =
      parentLookup cfg σ := by
    unfold parentLookup
    cases hp : cfg.parent_id with
    | none => rfl
    | some pid =>
        have hne2 : pid ≠ location_id := by
          intro hx; exact hpar (by rw [hp, hx])
        simp only [dictGet_dictSet]
        rw [if_neg (fun hx : location_id = pid => hne2 hx.symm)]
  unfold evaluateState
  rw [hcfg]
  simp only [hget]
  unfold evalGated
  rw [if_neg (by rw [hg2]; exact Bool.false_ne_true)]
  rw [hparent, hnew,
    computeNext_idem configs cfg (parentLookup cfg σ) prev e now hkind]
  simp

/-- Witness for `c4_theorem` at a concrete momentary pulse. -/
theorem c4_witness :
    evaluateState [c4cfg]
      (dictSet [("kitchen", defaultState)] "kitchen"
        ⟨true, some 10, ∅, ∅, LockState.UNLOCKED⟩)
      "kitchen" (some c2pulse) 0 = some none :=
  c4_theorem [c4cfg] [("kitchen", defaultState)] "kitchen" c2pulse 0 c4cfg
    defaultState ⟨true, some 10, ∅, ∅, LockState.UNLOCKED⟩ (by decide)
    (by decide) (by decide) (by decide)

/-! ## I2 preservation (claim C5's amended statement) -/

/-- Every state the evaluator commits satisfies I2: the vacancy scrub of
section D clears all evidence whenever the candidate is vacant. -/
theorem computeNext_I2 (configs : List LocationConfig)
    (config : LocationConfig) (ps : Option LocationRuntimeState)
    (s : LocationRuntimeState) (ev : Option OccupancyEvent) (now : Int) :
    I2pt (computeNext configs config ps s ev now) := by
  rw [computeNext_eq_parts]
  unfold I2pt
  split_ifs <;> simp

/-- A full-map invariant: every stored state satisfies I2. -/
def I2map (σ : List (String × LocationRuntimeState)) : Prop :=
  ∀ l s, dictGet σ l = some s → I2pt s

theorem I2map_dictSet {σ : List (String × LocationRuntimeState)}
    {L : String} {new : LocationRuntimeState} (hσ : I2map σ)
    (hnew : I2pt new) : I2map (dictSet σ L new) := by
  intro l s hget
  rw [dictGet_dictSet] at hget
  by_cases h : L = l
  · rw [if_pos h] at hget
    injection hget with hh
    rw [← hh]
    exact hnew
  · rw [if_neg h] at hget
    exact hσ l s hget


/-- The recursive propagation preserves the I2 map invariant: every write it
performs goes through the evaluator's scrub. -/
theorem engineGo_I2 :
    ∀ (fuel : Nat) (configs : List LocationConfig) (task : EngineTask)
      (now : Int) (σ : List (String × LocationRuntimeState))
      (trs : List StateTransition)
      (out : List (String × LocationRuntimeState) × List StateTransition),
      engineGo fuel configs task now σ trs = some out →
      I2map σ → I2map out.1 := by
  intro fuel
  induction fuel with
  | zero =>
      intro configs task now σ trs out hrun hinv
      exact absurd hrun (by simp [engineGo])
  | succ f ih =>
      intro configs task now σ trs out hrun hinv
      cases task with
      | evalKids kids =>
          cases kids with
          | nil =>
              simp only [engineGo, Option.some.injEq] at hrun
              rw [← hrun]
              exact hinv
          | cons child rest =>
              simp only [engineGo] at hrun
              cases hcg : configGet configs child with
              | none => rw [hcg] at hrun; simp at hrun
              | some child_config =>
                  rw [hcg] at hrun
                  replace hrun :
                      (if child_config.occupancy_strategy =
                          OccupancyStrategy.FOLLOW_PARENT then
                        match engineGo f configs
                            (EngineTask.evalLoc child none) now σ trs with
                        | none => none
                        | some (σ', trs') =>
                            engineGo f configs (EngineTask.evalKids rest) now
                              σ' trs'
                      else engineGo f configs (EngineTask.evalKids rest) now
                        σ trs) = some out := hrun
                  by_cases hfp : child_config.occupancy_strategy =
                      OccupancyStrategy.FOLLOW_PARENT
                  · rw [if_pos hfp] at hrun
                    cases hstep : engineGo f configs
                        (EngineTask.evalLoc child none) now σ trs with
                    | none => rw [hstep] at hrun; simp at hrun
                    | some p =>
                        rw [hstep] at hrun
                        obtain ⟨σ', trs'⟩ := p
                        replace hrun : engineGo f configs
                            (EngineTask.evalKids rest) now σ' trs' =
                            some out := hrun
                        exact ih configs (EngineTask.evalKids rest) now σ'
                          trs' out hrun
                          (ih configs (EngineTask.evalLoc child none) now σ
                            trs (σ', trs') hstep hinv)
                  · rw [if_neg hfp] at hrun
                    exact ih configs (EngineTask.evalKids rest) now σ trs out
                      hrun hinv
      | evalLoc L ev =>
          simp only [engineGo] at hrun
          cases hev : evaluateState configs σ L ev now with
          | none => rw [hev] at hrun; simp at hrun
          | some r =>
              rw [hev] at hrun
              cases r with
              | none =>
                  replace hrun : some (σ, trs) = some out := hrun
                  simp only [Option.some.injEq] at hrun
                  rw [← hrun]
                  exact hinv
              | some pr =>
                  obtain ⟨prev, new⟩ := pr
                  obtain ⟨config, hc, hs, hg, hnew, hne⟩ :=
                    evaluateState_commit hev
                  have hinv1 : I2map (dictSet σ L new) :=
                    I2map_dictSet hinv
                      (hnew ▸ computeNext_I2 configs config
                        (parentLookup config σ) prev ev now)
                  replace hrun :
                      (match configGet configs L with
                       | none => none
                       | some config =>
                           match
                             (match config.parent_id with
                              | some pid =>
                                  if (config.contributes_to_parent &&
                                      (new.is_occupied ||
                                        decide (new.active_occupants ≠ ∅)))
                                      = true then
                                    engineGo f configs
                                      (EngineTask.evalLoc pid
                                        (some (propagatedEvent pid L now)))
                                      now (dictSet σ L new)
                                      (trs ++ [⟨L, prev, new,
                                        if ev.isSome then "event"
                                        else "timeout"⟩])
                                  else some (dictSet σ L new,
                                    trs ++ [⟨L, prev, new,
                                      if ev.isSome then "event"
                                      else "timeout"⟩])
                              | none => some (dictSet σ L new,
                                  trs ++ [⟨L, prev, new,
                                    if ev.isSome then "event"
                                    else "timeout"⟩])) with
                           | none => none
                           | some (σ2, trs2) =>
                               engineGo f configs
                                 (EngineTask.evalKids (childrenOf configs L))
                                 now σ2 trs2) = some out := hrun
                  rw [hc] at hrun
                  replace hrun :
                      (match
                         (match config.parent_id with
                          | some pid =>
                              if (config.contributes_to_parent &&
                                  (new.is_occupied ||
                                    decide (new.active_occupants ≠ ∅)))
                                  = true then
                                engineGo f configs
                                  (EngineTask.evalLoc pid
                                    (some (propagatedEvent pid L now)))
                                  now (dictSet σ L new)
                                  (trs ++ [⟨L, prev, new,
                                    if ev.isSome then "event"
                                    else "timeout"⟩])
                              else some (dictSet σ L new,
                                trs ++ [⟨L, prev, new,
                                  if ev.isSome then "event"
                                  else "timeout"⟩])
                          | none => some (dictSet σ L new,
                              trs ++ [⟨L, prev, new,
                                if ev.isSome then "event"
                                else "timeout"⟩])) with
                       | none => none
                       | some (σ2, trs2) =>
                           engineGo f configs
                             (EngineTask.evalKids (childrenOf configs L))
                             now σ2 trs2) = some out := hrun
                  cases hp : config.parent_id with
                  | some pid =>
                      rw [hp] at hrun
                      replace hrun :
                          (match
                             (if (config.contributes_to_parent &&
                                 (new.is_occupied ||
                                   decide (new.active_occupants ≠ ∅)))
                                 = true then
                               engineGo f configs
                                 (EngineTask.evalLoc pid
                                   (some (propagatedEvent pid L now)))
                                 now (dictSet σ L new)
                                 (trs ++ [⟨L, prev, new,
                                   if ev.isSome then "event"
                                   else "timeout"⟩])
                             else some (dictSet σ L new,
                               trs ++ [⟨L, prev, new,
                                 if ev.isSome then "event"
                                 else "timeout"⟩])) with
                           | none => none
                           | some (σ2, trs2) =>
                               engineGo f configs
                                 (EngineTask.evalKids (childrenOf configs L))
                                 now σ2 trs2) = some out := hrun
                      by_cases hprop : (config.contributes_to_parent &&
                          (new.is_occupied ||
                            decide (new.active_occupants ≠ ∅))) = true
                      · rw [if_pos hprop] at hrun
                        cases hstep : engineGo f configs
                            (EngineTask.evalLoc pid
                              (some (propagatedEvent pid L now))) now
                            (dictSet σ L new)
                            (trs ++ [⟨L, prev, new,
                              if ev.isSome then "event" else "timeout"⟩])
                            with
                        | none => rw [hstep] at hrun; simp at hrun
                        | some p =>
                            rw [hstep] at hrun
                            obtain ⟨σ2, trs2⟩ := p
                            replace hrun : engineGo f configs
                                (EngineTask.evalKids
                                  (childrenOf configs L)) now σ2 trs2 =
                                some out := hrun
                            exact ih configs _ now σ2 trs2 out hrun
                              (ih configs _ now (dictSet σ L new) _
                                (σ2, trs2) hstep hinv1)
                      · rw [if_neg hprop] at hrun
                        replace hrun : engineGo f configs
                            (EngineTask.evalKids (childrenOf configs L)) now
                            (dictSet σ L new)
                            (trs ++ [⟨L, prev, new,
                              if ev.isSome then "event" else "timeout"⟩]) =
                            some out := hrun
                        exact ih configs _ now _ _ out hrun hinv1
                  | none =>
                      rw [hp] at hrun
                      replace hrun : engineGo f configs
                          (EngineTask.evalKids (childrenOf configs L)) now
                          (dictSet σ L new)
                          (trs ++ [⟨L, prev, new,
                            if ev.isSome then "event" else "timeout"⟩]) =
                          some out := hrun
                      exact ih configs _ now _ _ out hrun hinv1

theorem handleEvent_I2 (fuel : Nat) (eng : OccupancyEngine)
    (e : OccupancyEvent) (now : Int) (eng' : OccupancyEngine)
    (r : EngineResult) (hinv : I2map eng.state)
    (hrun : handleEvent fuel eng e now = some (eng', r)) :
    I2map eng'.state := by
  unfold handleEvent at hrun
  cases hc : configGet eng.configs e.location_id with
  | none =>
      rw [hc] at hrun
      replace hrun : some (eng,
          (⟨calcNextExpiration eng.state now, []⟩ : EngineResult)) =
          some (eng', r) := hrun
      simp only [Option.some.injEq, Prod.mk.injEq] at hrun
      obtain ⟨h1, _⟩ := hrun
      rw [← h1]
      exact hinv
  | some cfg =>
      rw [hc] at hrun
      replace hrun :
          (match processLocationUpdate fuel eng.configs e.location_id
              (some e) now eng.state [] with
           | none => none
           | some (σ', trs) =>
               some ((⟨eng.configs, σ'⟩ : OccupancyEngine),
                 (⟨calcNextExpiration σ' now, trs⟩ : EngineResult))) =
          some (eng', r) := hrun
      cases hp : processLocationUpdate fuel eng.configs e.location_id
          (some e) now eng.state [] with
      | none => rw [hp] at hrun; simp at hrun
      | some p =>
          rw [hp] at hrun
          obtain ⟨σ', trs⟩ := p
          replace hrun : some ((⟨eng.configs, σ'⟩ : OccupancyEngine),
              (⟨calcNextExpiration σ' now, trs⟩ : EngineResult)) =
              some (eng', r) := hrun
          simp only [Option.some.injEq, Prod.mk.injEq] at hrun
          obtain ⟨h1, _⟩ := hrun
          rw [← h1]
          exact engineGo_I2 fuel eng.configs
            (EngineTask.evalLoc e.location_id (some e)) now eng.state []
            (σ', trs) hp hinv

theorem checkTimeoutsGo_I2 (fuel : Nat) (configs : List LocationConfig) :
    ∀ (ids : List String) (now : Int)
      (σ : List (String × LocationRuntimeState))
      (trs : List StateTransition)
      (out : List (String × LocationRuntimeState) × List StateTransition),
      checkTimeoutsGo fuel configs ids now σ trs = some out →
      I2map σ → I2map out.1 := by
  intro ids
  induction ids with
  | nil =>
      intro now σ trs out h hinv
      replace h : some (σ, trs) = some out := h
      simp only [Option.some.injEq] at h
      rw [← h]
      exact hinv
  | cons i rest ih =>
      intro now σ trs out h hinv
      unfold checkTimeoutsGo at h
      cases hs : dictGet σ i with
      | none => rw [hs] at h; simp at h
      | some st =>
          rw [hs] at h
          replace h :
              (if st.lock_state = LockState.LOCKED_FROZEN then
                checkTimeoutsGo fuel configs rest now σ trs
              else if st.is_occupied = false then
                checkTimeoutsGo fuel configs rest now σ trs
              else
                match processLocationUpdate fuel configs i none now σ trs
                    with
                | none => none
                | some (σ', trs') =>
                    checkTimeoutsGo fuel configs rest now σ' trs') =
              some out := h
          by_cases h1 : st.lock_state = LockState.LOCKED_FROZEN
          · rw [if_pos h1] at h
            exact ih now σ trs out h hinv
          · rw [if_neg h1] at h
            by_cases h2 : st.is_occupied = false
            · rw [if_pos h2] at h
              exact ih now σ trs out h hinv
            · rw [if_neg h2] at h
              cases hp : processLocationUpdate fuel configs i none now σ trs
                  with
              | none => rw [hp] at h; simp at h
              | some p =>
                  rw [hp] at h
                  obtain ⟨σ', trs'⟩ := p
                  replace h : checkTimeoutsGo fuel configs rest now σ' trs' =
                      some out := h
                  exact ih now σ' trs' out h
                    (engineGo_I2 fuel configs (EngineTask.evalLoc i none) now
                      σ trs (σ', trs') hp hinv)

theorem checkTimeouts_I2 (fuel : Nat) (eng : OccupancyEngine) (now : Int)
    (eng' : OccupancyEngine) (r : EngineResult) (hinv : I2map eng.state)
    (hrun : checkTimeouts fuel eng now = some (eng', r)) :
    I2map eng'.state := by
  unfold checkTimeouts at hrun
  cases hp : checkTimeoutsGo fuel eng.configs (configIds eng.configs) now
      eng.state [] with
  | none => rw [hp] at hrun; simp at hrun
  | some p =>
      rw [hp] at hrun
      obtain ⟨σ', trs⟩ := p
      replace hrun : some ((⟨eng.configs, σ'⟩ : OccupancyEngine),
          (⟨calcNextExpiration σ' now, trs⟩ : EngineResult)) =
          some (eng', r) := hrun
      simp only [Option.some.injEq, Prod.mk.injEq] at hrun
      obtain ⟨h1, _⟩ := hrun
      rw [← h1]
      exact checkTimeoutsGo_I2 fuel eng.configs (configIds eng.configs) now
        eng.state [] (σ', trs) hp hinv

theorem I2map_of_forall : ∀ (σ : List (String × LocationRuntimeState)),
    (∀ p ∈ σ, I2pt p.2) → I2map σ := by
  intro σ
  induction σ with
  | nil =>
      intro _ l s hget
      exact absurd hget (by simp [dictGet])
  | cons hd tl ih =>
      intro h l s hget
      obtain ⟨k, v⟩ := hd
      rw [show dictGet ((k, v) :: tl) l =
        if k = l then some v else dictGet tl l from rfl] at hget
      by_cases hk : k = l
      · rw [if_pos hk] at hget
        injection hget with hh
        rw [← hh]
        exact h (k, v) (by simp)
      · rw [if_neg hk] at hget
        exact ih (fun p hp => h p (by simp [hp])) l s hget

/-- C5 amended: I2 is preserved by `handle_event` and by `check_timeouts`
(every state the engine writes passes the vacancy scrub); the restore path
does not guarantee it (see `c5_counterexample`). -/
theorem c5_theorem :
    (∀ (fuel : Nat) (eng : OccupancyEngine) (e : OccupancyEvent) (now : Int)
        (eng' : OccupancyEngine) (r : EngineResult),
        I2map eng.state → handleEvent fuel eng e now = some (eng', r) →
        I2map eng'.state) ∧
    (∀ (fuel : Nat) (eng : OccupancyEngine) (now : Int)
        (eng' : OccupancyEngine) (r : EngineResult),
        I2map eng.state → checkTimeouts fuel eng now = some (eng', r) →
        I2map eng'.state) :=
  ⟨fun fuel eng e now eng' r hinv hrun =>
      handleEvent_I2 fuel eng e now eng' r hinv hrun,
   fun fuel eng now eng' r hinv hrun =>
      checkTimeouts_I2 fuel eng now eng' r hinv hrun⟩

/-- Witness for `c5_theorem`: a concrete pulse run and a concrete timeout
sweep, with the preserved invariant read back at the kitchen. -/
theorem c5_witness :
    I2pt ⟨true, some 10, ∅, ∅, LockState.UNLOCKED⟩ ∧ I2pt defaultState :=
  ⟨c5_theorem.1 3 (initEngine [c5cfg] none) c2pulse 0
      ⟨[c5cfg], [("kitchen", ⟨true, some 10, ∅, ∅, LockState.UNLOCKED⟩)]⟩
      ⟨some 10, [⟨"kitchen", defaultState,
        ⟨true, some 10, ∅, ∅, LockState.UNLOCKED⟩, "event"⟩]⟩
      (I2map_of_forall _ (by
        intro p hp
        rw [show (initEngine [c5cfg] none).state =
          [("kitchen", defaultState)] from by decide] at hp
        simp at hp
        rw [hp]
        decide))
      (by decide) "kitchen" ⟨true, some 10, ∅, ∅, LockState.UNLOCKED⟩
      (by decide),
   c5_theorem.2 3
      ⟨[c5cfg], [("kitchen", ⟨true, some 10, ∅, ∅, LockState.UNLOCKED⟩)]⟩
      100 ⟨[c5cfg], [("kitchen", defaultState)]⟩
      ⟨none, [⟨"kitchen", ⟨true, some 10, ∅, ∅, LockState.UNLOCKED⟩,
        defaultState, "timeout"⟩]⟩
      (I2map_of_forall _ (by intro p hp; simp at hp; rw [hp]; decide))
      (by decide) "kitchen" defaultState (by decide)⟩

/-! ## Construction facts (claim C8's amended statement) -/

theorem dictGet_map_defaultState (ids : List String) (x : String) :
    dictGet (ids.map (fun i => (i, defaultState))) x =
      if x ∈ ids then some defaultState else none := by
  induction ids with
  | nil => simp [dictGet]
  | cons i rest ih =>
      by_cases h : i = x
      · simp [dictGet, h]
      · have h2 : ¬ x = i := fun hh => h hh.symm
        simp [dictGet, h, h2, ih]

theorem mem_configIds_aux : ∀ (l : List LocationConfig) (acc : List String)
    (x : String),
    (x ∈ l.foldl
      (fun a c => if a.contains c.id then a else a ++ [c.id]) acc) ↔
      (x ∈ acc ∨ ∃ c ∈ l, c.id = x) := by
  intro l
  induction l with
  | nil => intro acc x; simp
  | cons c rest ih =>
      intro acc x
      simp only [List.foldl_cons]
      by_cases hc : acc.contains c.id
      · rw [if_pos hc, ih]
        have hmem : c.id ∈ acc := by simpa using hc
        constructor
        · rintro (h | ⟨cc, hcc, hid⟩)
          · exact Or.inl h
          · exact Or.inr ⟨cc, List.mem_cons_of_mem _ hcc, hid⟩
        · rintro (h | ⟨cc, hcc, hid⟩)
          · exact Or.inl h
          · rcases List.mem_cons.mp hcc with hceq | htl
            · subst hceq; exact Or.inl (hid ▸ hmem)
            · exact Or.inr ⟨cc, htl, hid⟩
      · rw [if_neg hc, ih]
        constructor
        · rintro (h | ⟨cc, hcc, hid⟩)
          · rcases List.mem_append.mp h with ha | hb
            · exact Or.inl ha
            · simp at hb
              exact Or.inr ⟨c, List.mem_cons_self _ _, hb.symm⟩
          · exact Or.inr ⟨cc, List.mem_cons_of_mem _ hcc, hid⟩
        · rintro (h | ⟨cc, hcc, hid⟩)
          · exact Or.inl (List.mem_append.mpr (Or.inl h))
          · rcases List.mem_cons.mp hcc with hceq | htl
            · subst hceq
              exact Or.inl (List.mem_append.mpr (Or.inr (by simp [hid])))
            · exact Or.inr ⟨cc, htl, hid⟩

theorem mem_configIds (configs : List LocationConfig) (c : LocationConfig)
    (h : c ∈ configs) : c.id ∈ configIds configs := by
  unfold configIds
  rw [mem_configIds_aux]
  exact Or.inr ⟨c, h, rfl⟩

/-- C8 amended: construction is total — `__init__` validates nothing — and
with no initial state every configured location starts default-vacant
(duplicates included: they collapse onto one default-vacant slot). -/
theorem c8_theorem (configs : List LocationConfig) (c : LocationConfig)
    (h : c ∈ configs) :
    dictGet (initEngine configs none).state c.id = some defaultState := by
  show dictGet ((configIds configs).map (fun i => (i, defaultState))) c.id =
    some defaultState
  rw [dictGet_map_defaultState, if_pos (mem_configIds configs c h)]

/-- Witness for `c8_theorem` on the duplicate-id, dangling-parent list. -/
theorem c8_witness :
    dictGet (initEngine c8dupConfigs none).state
      (⟨"kitchen", some "ghost", LocationKind.AREA,
        OccupancyStrategy.INDEPENDENT, true, []⟩ : LocationConfig).id =
      some defaultState :=
  c8_theorem c8dupConfigs
    ⟨"kitchen", some "ghost", LocationKind.AREA,
     OccupancyStrategy.INDEPENDENT, true, []⟩ (by decide)

/-! ## Claim C9 — malformed snapshots -/

/-- Second config for the C9 runs. -/
def c9hallcfg : LocationConfig :=
  ⟨"hall", none, LocationKind.AREA, OccupancyStrategy.INDEPENDENT, true,
   defaultTimeouts⟩

/-- Two-location config list for the C9 runs. -/
def c9cfgs : List LocationConfig := [c5cfg, c9hallcfg]

/-- A snapshot entry with an unrecognised `lock_state` string. -/
def c9badEntry : SnapshotEntry :=
  ⟨true, TimeField.absent, [], [], "party"⟩

/-- A perfectly well-formed snapshot entry (fresh timer at 15:00). -/
def c9goodEntry : SnapshotEntry :=
  ⟨true, TimeField.valid 900, [], [], "unlocked"⟩

/-- C9 counterexample: an entry with lock_state "party" makes `restore_state`
raise (`ValueError` from `LockState(...)`, modelled by the `false` flag) and
the restore aborts: the following well-formed `hall` entry is *not* restored
(second conjunct shows it restores fine on its own).  The claim says the bad
entry is skipped and every other entry still restored. -/
theorem c9_counterexample :
    restoreState (initEngine c9cfgs none)
        [("kitchen", c9badEntry), ("hall", c9goodEntry)] 720 15 =
      (⟨c9cfgs, [("kitchen", defaultState), ("hall", defaultState)]⟩,
       false) ∧
    restoreState (initEngine c9cfgs none) [("hall", c9goodEntry)] 720 15 =
      (⟨c9cfgs, [("kitchen", defaultState),
        ("hall", ⟨true, some 900, ∅, ∅, LockState.UNLOCKED⟩)]⟩, true) := by
  refine ⟨by decide, by decide⟩

/-- C9 amended: (1) unknown location ids are skipped without failure;
(2) a malformed `occupied_until` is coerced to absent and the rest of the
entry is restored (when the lock string parses); (3) an entry with an
unrecognised `lock_state` string makes the call raise (modelled as the
`false` flag) whenever rule R-C does not already force the entry to
default-vacant; (4) a raising entry aborts the loop: the remaining snapshot
entries are not processed. -/
theorem c9_theorem :
    (∀ (configs : List LocationConfig) (now : Int)
        (σ : List (String × LocationRuntimeState)) (loc : String)
        (d : SnapshotEntry), configGet configs loc = none →
        restoreEntry configs now σ loc d = (σ, true)) ∧
    (∀ (configs : List LocationConfig) (now : Int)
        (σ : List (String × LocationRuntimeState)) (loc : String)
        (d : SnapshotEntry) (cfg : LocationConfig) (ls : LockState),
        configGet configs loc = some cfg →
        d.occupied_until = TimeField.malformed →
        lockStateOfValue d.lock_state = some ls →
        ∃ s, restoreEntry configs now σ loc d = (dictSet σ loc s, true) ∧
          s.occupied_until = none ∧
          s.active_occupants = d.active_occupants.toFinset ∧
          s.active_holds = d.active_holds.toFinset) ∧
    (∀ (configs : List LocationConfig) (now : Int)
        (σ : List (String × LocationRuntimeState)) (loc : String)
        (d : SnapshotEntry) (cfg : LocationConfig),
        configGet configs loc = some cfg →
        lockStateOfValue d.lock_state = none →
        ¬ (d.active_occupants.toFinset = ∅ ∧ d.active_holds.toFinset = ∅ ∧
          (match d.occupied_until with
           | TimeField.valid t => t < now
           | _ => False)) →
        restoreEntry configs now σ loc d = (σ, false)) ∧
    (∀ (configs : List LocationConfig) (now : Int)
        (σ σ1 : List (String × LocationRuntimeState)) (loc : String)
        (d : SnapshotEntry) (rest : List (String × SnapshotEntry)),
        restoreEntry configs now σ loc d = (σ1, false) →
        restoreStateGo configs now ((loc, d) :: rest) σ = (σ1, false)) := by
  refine ⟨?_, ?_, ?_, ?_⟩
  · intro configs now σ loc d hc
    unfold restoreEntry
    rw [if_pos (by rw [hc]; rfl)]
  · intro configs now σ loc d cfg ls hc hmal hls
    unfold restoreEntry
    rw [if_neg (by rw [hc]; simp)]
    rw [hmal]
    by_cases hA : d.lock_state = "locked_frozen"
    · rw [if_pos hA]
      exact ⟨⟨d.is_occupied, none, d.active_occupants.toFinset,
        d.active_holds.toFinset, LockState.LOCKED_FROZEN⟩, rfl, rfl, rfl,
        rfl⟩
    · rw [if_neg hA]
      by_cases hB : (decide (d.active_occupants.toFinset ≠ ∅) ||
          decide (d.active_holds.toFinset ≠ ∅)) = true
      · rw [if_pos hB, hls]
        exact ⟨⟨true, none, d.active_occupants.toFinset,
          d.active_holds.toFinset, ls⟩, rfl, rfl, rfl, rfl⟩
      · rw [if_neg hB]
        rw [if_neg (by simp)]
        rw [hls]
        exact ⟨⟨d.is_occupied, none, d.active_occupants.toFinset,
          d.active_holds.toFinset, ls⟩, rfl, rfl, rfl, rfl⟩
  · intro configs now σ loc d cfg hc hls hnc
    unfold restoreEntry
    rw [if_neg (by rw [hc]; simp)]
    have hA : ¬ d.lock_state = "locked_frozen" := by
      intro hx
      rw [hx] at hls
      simp [lockStateOfValue] at hls
    rw [if_neg hA]
    by_cases hB : (decide (d.active_occupants.toFinset ≠ ∅) ||
        decide (d.active_holds.toFinset ≠ ∅)) = true
    · rw [if_pos hB, hls]
    · rw [if_neg hB]
      rw [Bool.not_eq_true] at hB
      simp only [Bool.or_eq_false_iff, decide_eq_false_iff_not, not_not]
        at hB
      obtain ⟨hocc, hholds⟩ := hB
      have hC : ¬ (match
          (match d.occupied_until with
           | TimeField.valid t => some t
           | _ => (none : Option Int)) with
          | some t => decide (t < now)
          | none => false) = true := by
        cases hdu : d.occupied_until with
        | valid t =>
            intro hx
            simp only [decide_eq_true_eq] at hx
            exact hnc ⟨hocc, hholds, by rw [hdu]; exact hx⟩
        | absent => simp
        | malformed => simp
      rw [if_neg hC, hls]
  · intro configs now σ σ1 loc d rest h
    unfold restoreStateGo
    rw [h]

/-- A snapshot entry with a malformed timestamp and a hold. -/
def c9malEntry : SnapshotEntry :=
  ⟨true, TimeField.malformed, [], ["radar"], "unlocked"⟩

/-- Witness for `c9_theorem` at concrete snapshot entries. -/
theorem c9_witness :
    restoreEntry c9cfgs 720 [] "ghost" c9goodEntry = ([], true) ∧
    (∃ s, restoreEntry c9cfgs 720 [("kitchen", defaultState)] "kitchen"
        c9malEntry = (dictSet [("kitchen", defaultState)] "kitchen" s,
        true) ∧ s.occupied_until = none ∧
        s.active_occupants = c9malEntry.active_occupants.toFinset ∧
        s.active_holds = c9malEntry.active_holds.toFinset) ∧
    restoreEntry c9cfgs 720 [("kitchen", defaultState)] "kitchen"
        c9badEntry = ([("kitchen", defaultState)], false) ∧
    restoreStateGo c9cfgs 720 [("kitchen", c9badEntry),
        ("hall", c9goodEntry)] [("kitchen", defaultState)] =
      ([("kitchen", defaultState)], false) :=
  ⟨c9_theorem.1 c9cfgs 720 [] "ghost" c9goodEntry (by decide),
   c9_theorem.2.1 c9cfgs 720 [("kitchen", defaultState)] "kitchen"
     c9malEntry c5cfg LockState.UNLOCKED (by decide) (by decide) (by decide),
   c9_theorem.2.2.1 c9cfgs 720 [("kitchen", defaultState)] "kitchen"
     c9badEntry c5cfg (by decide) (by decide) (fun h => h.2.2),
   c9_theorem.2.2.2 c9cfgs 720 [("kitchen", defaultState)]
     [("kitchen", defaultState)] "kitchen" c9badEntry
     [("hall", c9goodEntry)]
     (c9_theorem.2.2.1 c9cfgs 720 [("kitchen", defaultState)] "kitchen"
       c9badEntry c5cfg (by decide) (by decide) (fun h => h.2.2))⟩
